import Mathlib

/-!
Verification of the KKN_DRIP5 drip-irrigation simulation engine.

This file shallowly embeds the simulation and coordination logic of the
repository:

* `SoilMoistureManager` (src/unnamed/part_000): moisture state, the
  evaporation accumulator, the irrigation ramp, the rain effect, the
  weather switch, persistence load/save validation, and the
  `shouldTriggerIrrigation` gate.
* `WaterVolumeManager` (src/water-level-manager.js): the tank state, the
  `performIrrigation` coordinator with its three gates
  (auto-irrigation enabled, soil moisture `< 35`, sufficient water),
  and the per-second scheduled-irrigation check `scheduleIrrigation`.
* The `syncWithWaterManager` wrapper (src/unnamed/part_000, lines
  164-186) that the soil manager installs over `performIrrigation`.

Numbers are modelled as `ℚ` (JS numbers on the values the engine
manipulates: integers and small fractions; no overflow or rounding is
involved at the magnitudes the engine uses).  Wall-clock instants are
minutes (`ℚ`) for the moisture engine and seconds (`ℕ`) for the
per-second scheduler model.  DOM, chart, logging and notification code
is outside the model; `localStorage` is modelled as the stored record
value itself.  Fields of `this.settings` that no modelled operation
reads (`autoWeatherChange`, `lastMoistureDecrease`, `lastIrrigationCheck`,
`scheduledIrrigations`) are omitted.
-/

/-- Weather condition (source strings `cerah` / `mendung` / `hujan`,
spec names Clear / Overcast / Rain). -/
inductive Weather where
  | cerah
  | mendung
  | hujan
deriving DecidableEq, Repr

/-- Evaporation profile returned by `getEvaporationParameters`
(src/unnamed/part_000, lines 590-617): percent per step and minutes per
step. -/
structure EvapParams where
  rate : ℚ
  interval : ℚ
deriving DecidableEq, Repr

/-- `SoilMoistureManager.getEvaporationParameters`: cerah = 1%/15min,
mendung = 1%/30min, hujan = no decrease.  The source returns
`interval: Infinity` for hujan; since its `rate` is 0 the accumulator
loop (guarded by `rate > 0`) is never reached, so the interval value is
irrelevant and is modelled as 0.  The source's `default` branch
(rate 1, interval 20) is unreachable for the three conditions of the
`Weather` enum. -/
def getEvaporationParameters : Weather → EvapParams
  | .cerah => ⟨1, 15⟩
  | .mendung => ⟨1, 30⟩
  | .hujan => ⟨0, 0⟩

/-- The `while` loop of `processNaturalEvaporation` (src/unnamed/part_000,
lines 574-584): while the accumulator holds at least one full interval,
decrement moisture by `rate` (floored at 0) and drain one interval from
the accumulator.  Returns (moisture, accumulator).  The source condition
is `accumulator >= interval`; the extra `0 < interval` conjunct makes the
recursion well founded and is satisfied whenever the loop is reachable
(the loop is guarded by `rate > 0`, which holds only for the profiles
with interval 15 and 30). -/
def evapLoop (rate interval m acc : ℚ) : ℚ × ℚ :=
  if h : 0 < interval ∧ interval ≤ acc then
    evapLoop rate interval (max 0 (m - rate)) (acc - interval)
  else (m, acc)
termination_by (⌈acc / interval⌉).toNat
decreasing_by
  obtain ⟨h1, h2⟩ := h
  have hne : interval ≠ 0 := ne_of_gt h1
  have key : (acc - interval) / interval = acc / interval - 1 := by
    rw [sub_div, div_self hne]
  have h3 : (1 : ℤ) ≤ ⌈acc / interval⌉ :=
    Int.one_le_ceil_iff.mpr (div_pos (lt_of_lt_of_le h1 h2) h1)
  rw [key, Int.ceil_sub_one]
  omega

/-- One-step unfolding of `evapLoop`. -/
theorem evapLoop_unfold (rate interval m acc : ℚ) :
    evapLoop rate interval m acc =
      if _h : 0 < interval ∧ interval ≤ acc then
        evapLoop rate interval (max 0 (m - rate)) (acc - interval)
      else (m, acc) := by
  rw [evapLoop]

/-- In-memory state of `SoilMoistureManager.settings` (src/unnamed/part_000,
lines 3-23), restricted to the fields the modelled operations read or
write.  `moistureThresholdsMin` models the optional
`settings.moistureThresholds.min` and `autoIrrigation` the optional
`settings.autoIrrigation` (both may be absent, i.e. `undefined`, in the
source).  Times (`irrigationStartTime`, `lastUpdate`) are wall-clock
minutes. -/
structure SoilSettings where
  currentMoisture : ℚ
  irrigationDuration : ℚ
  weather : Weather
  isIrrigating : Bool
  irrigationStartTime : Option ℚ
  irrigationTargetMoisture : ℚ
  lastUpdate : ℚ
  moistureDecreaseAccumulator : ℚ
  moistureThresholdsMin : Option ℚ
  autoIrrigation : Option Bool
deriving DecidableEq, Repr

/-- `SoilMoistureManager.processNaturalEvaporation` (src/unnamed/part_000,
lines 562-588): when the weather's evaporation rate is positive, add the
elapsed minutes to the accumulator and drain it through `evapLoop`. -/
def processNaturalEvaporation (s : SoilSettings) (timeDiff : ℚ) : SoilSettings :=
  let p := getEvaporationParameters s.weather
  if 0 < p.rate then
    let r := evapLoop p.rate p.interval s.currentMoisture
      (s.moistureDecreaseAccumulator + timeDiff)
    { s with currentMoisture := r.1, moistureDecreaseAccumulator := r.2 }
  else s

/-- `SoilMoistureManager.processIrrigationIncrease` (src/unnamed/part_000,
lines 543-560).  `timeDiff` is the clamped elapsed time handed over by
`updateMoisture`; `now` is the current instant in minutes, from which the
elapsed irrigation time is derived (the source uses `new Date()`; a null
start time makes the elapsed irrigation time 0, as in the source).  Within
the irrigation duration the target is recomputed from the current
moisture as `min(40, max(25, current + 15))`, the rate is
`(target - current) / irrigationDuration`, and the result is capped first
at the target and then at 40. -/
def processIrrigationIncrease (s : SoilSettings) (timeDiff now : ℚ) : SoilSettings :=
  let irrigationTime := now - s.irrigationStartTime.getD now
  if irrigationTime ≤ s.irrigationDuration then
    let targetMoisture := min 40 (max 25 (s.currentMoisture + 15))
    let totalIncrease := targetMoisture - s.currentMoisture
    let increaseRate := totalIncrease / s.irrigationDuration
    let increaseAmount := increaseRate * timeDiff
    { s with currentMoisture :=
               min 40 (min targetMoisture (s.currentMoisture + increaseAmount)) }
  else s

/-- `SoilMoistureManager.updateMoisture` (src/unnamed/part_000, lines
494-541): compute the minutes elapsed since `lastUpdate`, clamp to at
most 60 simulated minutes, then apply the irrigation ramp (if
irrigating) or natural evaporation (if not raining), clamp moisture to
[0, 100] and record the update instant.  The NaN-repair branches of the
source are identities in the `ℚ` model. -/
def updateMoisture (s : SoilSettings) (now : ℚ) : SoilSettings :=
  let timeDiff := now - s.lastUpdate
  let actualTimeDiff := min timeDiff 60
  let s1 :=
    if s.isIrrigating then processIrrigationIncrease s actualTimeDiff now
    else if s.weather ≠ Weather.hujan then processNaturalEvaporation s actualTimeDiff
    else s
  { s1 with currentMoisture := max 0 (min 100 s1.currentMoisture),
            lastUpdate := now }

/-- `SoilMoistureManager.startIrrigation` (src/unnamed/part_000, lines
366-398): a re-entry no-op when already irrigating; otherwise records the
start, computes the initial target `min(40, max(25, current + 12))` and
resets the evaporation accumulator.  The `setTimeout` auto-stop is
modelled at the scheduler level (`startIrrigationSys`). -/
def startIrrigation (s : SoilSettings) (now : ℚ) : SoilSettings :=
  if s.isIrrigating then s
  else
    { s with isIrrigating := true,
             irrigationStartTime := some now,
             irrigationTargetMoisture := min 40 (max 25 (s.currentMoisture + 12)),
             moistureDecreaseAccumulator := 0 }

/-- `SoilMoistureManager.stopIrrigation` (src/unnamed/part_000, lines
400-421): a no-op when not irrigating; otherwise clears the irrigation
flags and resets the accumulator. -/
def stopIrrigation (s : SoilSettings) : SoilSettings :=
  if s.isIrrigating then
    { s with isIrrigating := false,
             irrigationStartTime := none,
             moistureDecreaseAccumulator := 0 }
  else s

/-- `SoilMoistureManager.applyRainEffect` (src/unnamed/part_000, lines
454-466).  `r` models the `Math.random()` draw, a value in [0, 1):
moisture becomes `min(100, max(0, 75 + 15 r))` and the evaporation
accumulator is reset to 0. -/
def applyRainEffect (s : SoilSettings) (r : ℚ) : SoilSettings :=
  let rainMoisture := 75 + r * 15
  { s with currentMoisture := min 100 (max 0 rainMoisture),
           moistureDecreaseAccumulator := 0 }

/-- `SoilMoistureManager.setWeather` (src/unnamed/part_000, lines
423-443): store the new condition and, when transitioning into rain from
a different condition, apply the rain effect (with random draw `r`). -/
def setWeather (s : SoilSettings) (w : Weather) (r : ℚ) : SoilSettings :=
  let oldWeather := s.weather
  let s1 := { s with weather := w }
  if w = Weather.hujan ∧ oldWeather ≠ Weather.hujan then applyRainEffect s1 r
  else s1

/-- `SoilMoistureManager.shouldTriggerIrrigation` (src/unnamed/part_000,
lines 998-1002): moisture below the configured threshold (default 35),
not already irrigating, and the soil manager's own `autoIrrigation`
setting not explicitly `false`. -/
def shouldTriggerIrrigation (s : SoilSettings) : Bool :=
  let threshold := s.moistureThresholdsMin.getD 35
  decide (s.currentMoisture < threshold) && !s.isIrrigating &&
    !(s.autoIrrigation == some false)

/-- One schedule entry of `WaterVolumeManager.settings.schedules`
(src/water-level-manager.js, lines 8-11), with the `"HH:MM"` time split
into hour and minute. -/
structure ScheduleEntry where
  h : ℕ
  m : ℕ
  enabled : Bool
deriving DecidableEq, Repr

/-- In-memory state of `WaterVolumeManager.settings`
(src/water-level-manager.js, lines 4-16), restricted to the fields the
modelled operations read or write. -/
structure WaterSettings where
  tankCapacity : ℚ
  currentLevel : ℚ
  irrigationVolume : ℚ
  autoIrrigation : Bool
  schedules : List ScheduleEntry
deriving DecidableEq, Repr

/-- Outcome of a `performIrrigation` call, identified by the branch the
source takes (each branch shows a distinct notification and the first
three return `false`). -/
inductive IrrigationOutcome where
  | success
  | autoDisabled
  | soilAlreadyWet
  | insufficientWater
deriving DecidableEq, Repr

/-- `WaterVolumeManager.performIrrigation` (src/water-level-manager.js,
lines 269-311), with `window.soilMoistureManager` present (the deployed
configuration).  Gate order as in the source: (1) `autoIrrigation`
enabled, (2) soil moisture `< 35`, (3) water sufficient; on success the
tank is decremented by `irrigationVolume` (floored at 0) and soil
irrigation is started.  `now` is the wall-clock instant in minutes
passed to `startIrrigation`. -/
def performIrrigation (w : WaterSettings) (s : SoilSettings) (now : ℚ) :
    WaterSettings × SoilSettings × IrrigationOutcome :=
  if w.autoIrrigation = false then (w, s, .autoDisabled)
  else if 35 ≤ s.currentMoisture then (w, s, .soilAlreadyWet)
  else if w.irrigationVolume ≤ w.currentLevel then
    ({ w with currentLevel := max 0 (w.currentLevel - w.irrigationVolume) },
     startIrrigation s now, .success)
  else (w, s, .insufficientWater)

/-- The override that `SoilMoistureManager.syncWithWaterManager`
(src/unnamed/part_000, lines 164-186) installs over
`waterVolumeManager.performIrrigation`: when the tank holds enough
water it calls the original `performIrrigation` (all gates) and then
unconditionally calls the soil manager's `startIrrigation`; otherwise it
only reports an error.  The `Bool` is true when the success notification
is shown. -/
def performIrrigationWrapped (w : WaterSettings) (s : SoilSettings) (now : ℚ) :
    WaterSettings × SoilSettings × Bool :=
  if w.irrigationVolume ≤ w.currentLevel then
    let r := performIrrigation w s now
    (r.1, startIrrigation r.2.1 now, true)
  else (w, s, false)

/-- Iterated one-minute ticks of the moisture simulation: `tickSeq s k`
is the state after the `updateMoisture` calls at instants
`s.lastUpdate + 1, …, s.lastUpdate + k` (the source's 1-minute
`setInterval`, src/unnamed/part_000, lines 468-478). -/
def tickSeq (s : SoilSettings) : ℕ → SoilSettings
  | 0 => s
  | k + 1 => updateMoisture (tickSeq s k) (s.lastUpdate + (k + 1 : ℕ))

/-- A JavaScript value stored in a numeric settings field: a finite
number, `NaN` (which has `typeof 'number'` but fails `isNaN`-negation),
or a value of any other type (string, null, undefined, …). -/
inductive JsVal where
  | num (q : ℚ)
  | nan
  | other
deriving DecidableEq, Repr

/-- The source's validity test `typeof v === 'number' && !isNaN(v)`. -/
def JsVal.isValidNumber : JsVal → Bool
  | .num _ => true
  | _ => false

/-- Persisted `soilMoistureSettings` record, restricted to the two
numeric fields that `loadSettings` and `saveSettings` validate. -/
structure RawSoilRecord where
  currentMoisture : JsVal
  irrigationDuration : JsVal
deriving DecidableEq, Repr

/-- What the durable store holds under the `soilMoistureSettings` key:
nothing, a record that `JSON.parse` cannot parse, or a parsed record. -/
inductive StoredSoil where
  | absent
  | malformed
  | parsed (r : RawSoilRecord)
deriving DecidableEq, Repr

/-- The `DOMContentLoaded` sanitizer (src/unnamed/part_000, lines
1020-1032): before the manager is constructed, the stored record is
removed when `JSON.parse` throws or when its `currentMoisture` is not a
non-NaN number. -/
def domSanitize : StoredSoil → Option RawSoilRecord
  | .absent => none
  | .malformed => none
  | .parsed r => if r.currentMoisture.isValidNumber then some r else none

/-- The `currentMoisture` pipeline of `SoilMoistureManager.loadSettings`
(src/unnamed/part_000, lines 45-86): start from the constructor default
45, copy the saved value only if it is a valid number (lines 50-52), and
finally replace anything that is not a number in [0, 100] by 45
(lines 77-80).  The `irrigationSettings` sync (lines 62-75) does not
touch `currentMoisture` and is omitted here. -/
def loadSettingsMoisture (saved : Option RawSoilRecord) : JsVal :=
  let m0 : JsVal := .num 45
  let m1 := match saved with
    | some r => if r.currentMoisture.isValidNumber then r.currentMoisture else m0
    | none => m0
  match m1 with
  | .num q => if q < 0 ∨ 100 < q then .num 45 else .num q
  | _ => .num 45

/-- Startup value of `currentMoisture`: the `DOMContentLoaded` sanitizer
followed by the constructor's `loadSettings`. -/
def startupMoisture (st : StoredSoil) : JsVal :=
  loadSettingsMoisture (domSanitize st)

/-- The validated copy `settingsToSave` that
`SoilMoistureManager.saveSettings` builds (src/unnamed/part_000, lines
90-94): a non-number or NaN `currentMoisture` is replaced by 45 and a
non-number or NaN `irrigationDuration` by 7. -/
def settingsToSave (s : RawSoilRecord) : RawSoilRecord :=
  { currentMoisture :=
      if s.currentMoisture.isValidNumber then s.currentMoisture else .num 45,
    irrigationDuration :=
      if s.irrigationDuration.isValidNumber then s.irrigationDuration else .num 7 }

/-- `SoilMoistureManager.saveSettings` (src/unnamed/part_000, lines
88-96): the record actually written to the store.  The source
stringifies `this.settings` (line 95), not the validated copy, so the
raw in-memory record is persisted and `settingsToSave` is discarded. -/
def saveSettings (s : RawSoilRecord) : RawSoilRecord :=
  s

/-- State of the deployed two-manager system as seen by the per-second
scheduler: tank settings, soil settings, and the pending `setTimeout`
auto-stop instant (in seconds) scheduled by `startIrrigation`, if any. -/
structure SysState where
  water : WaterSettings
  soil : SoilSettings
  stopAt : Option ℚ
deriving DecidableEq, Repr

/-- `startIrrigation` lifted to the system state: a re-entry no-op when
already irrigating, otherwise starts soil irrigation and schedules the
auto-stop `irrigationDuration * 60` seconds later (the `setTimeout` of
src/unnamed/part_000, lines 395-397).  `t` is the current instant in
seconds; the soil-level start time is recorded in minutes. -/
def startIrrigationSys (st : SysState) (t : ℕ) : SysState :=
  if st.soil.isIrrigating then st
  else
    { st with soil := startIrrigation st.soil ((t : ℚ) / 60),
              stopAt := some ((t : ℚ) + 60 * st.soil.irrigationDuration) }

/-- `performIrrigation` lifted to the system state, tracking the
auto-stop timer; the `Bool` is true exactly when tank water is consumed
(the success branch).  Mirrors src/water-level-manager.js, lines
269-311. -/
def coordPerform (t : ℕ) (st : SysState) : SysState × Bool :=
  if st.water.autoIrrigation = false then (st, false)
  else if 35 ≤ st.soil.currentMoisture then (st, false)
  else if st.water.irrigationVolume ≤ st.water.currentLevel then
    let w' := { st.water with
                currentLevel := max 0 (st.water.currentLevel - st.water.irrigationVolume) }
    (startIrrigationSys { st with water := w' } t, true)
  else (st, false)

/-- The deployed (wrapped) `performIrrigation` on the system state: the
`syncWithWaterManager` override checks water sufficiency, runs the
original, then unconditionally calls the soil manager's
`startIrrigation` (re-entry-guarded, scheduling the auto-stop only when
it actually starts). -/
def coordPerformWrapped (t : ℕ) (st : SysState) : SysState × Bool :=
  if st.water.irrigationVolume ≤ st.water.currentLevel then
    let r := coordPerform t st
    (startIrrigationSys r.1 t, r.2)
  else (st, false)

/-- The time match of `WaterVolumeManager.scheduleIrrigation`
(src/water-level-manager.js, line 372): the per-second interval fires
when the wall clock reads the slot's hour and minute at second 0.  `t`
is the instant in seconds. -/
def slotDue (slot : ScheduleEntry) (t : ℕ) : Prop :=
  t / 3600 % 24 = slot.h ∧ t % 3600 / 60 = slot.m ∧ t % 60 = 0

instance (slot : ScheduleEntry) (t : ℕ) : Decidable (slotDue slot t) := by
  unfold slotDue
  infer_instance

/-- The body of one registered schedule's per-second interval
(src/water-level-manager.js, lines 370-390): on a time match, when auto
irrigation is on and the tank holds enough water, consult the soil
manager's `shouldTriggerIrrigation` and, if it agrees, call the
(deployed, wrapped) `performIrrigation`.  The `ℕ` counts tank
consumptions (0 or 1). -/
def slotCallback (t : ℕ) (slot : ScheduleEntry) (st : SysState) : SysState × ℕ :=
  if slotDue slot t then
    if st.water.autoIrrigation = true ∧
        st.water.irrigationVolume ≤ st.water.currentLevel then
      if shouldTriggerIrrigation st.soil then
        let r := coordPerformWrapped t st
        (r.1, if r.2 then 1 else 0)
      else (st, 0)
    else (st, 0)
  else (st, 0)

/-- All registered schedule intervals run within one wall-clock second,
in registration order (`scheduleIrrigations` registers one interval per
enabled slot, src/water-level-manager.js, lines 352-365). -/
def slotsStep (t : ℕ) : List ScheduleEntry → SysState → SysState × ℕ
  | [], st => (st, 0)
  | slot :: rest, st =>
    let r := slotCallback t slot st
    let r2 := slotsStep t rest r.1
    (r2.1, r.2 + r2.2)

/-- Delivery of the pending `setTimeout` auto-stop: when its instant has
been reached, `stopIrrigation` runs and the timer is cleared. -/
def processStop (t : ℕ) (st : SysState) : SysState :=
  match st.stopAt with
  | none => st
  | some T => if T ≤ (t : ℚ) then
      { st with soil := stopIrrigation st.soil, stopAt := none }
    else st

/-- One wall-clock second of the scheduler subsystem: deliver a due
auto-stop, then run every registered schedule interval. -/
def stepSecond (slots : List ScheduleEntry) (t : ℕ) (st : SysState) :
    SysState × ℕ :=
  slotsStep t slots (processStop t st)

/-- Run the scheduler subsystem over `k` consecutive seconds starting at
instant `t`, returning the final state and the total number of tank
consumptions (scheduled irrigation fires). -/
def runSched (slots : List ScheduleEntry) : ℕ → ℕ → SysState → SysState × ℕ
  | _, 0, st => (st, 0)
  | t, k + 1, st =>
    let r := stepSecond slots t st
    let r2 := runSched slots (t + 1) k r.1
    (r2.1, r.2 + r2.2)

/-- A soil state with the constructor defaults of src/unnamed/part_000
(duration 15, weather cerah, idle, accumulator 0, no optional threshold
and no soil-level `autoIrrigation` setting), at moisture `m` and with
`lastUpdate` at instant 0. -/
def mkSoil (m : ℚ) : SoilSettings :=
  { currentMoisture := m
    irrigationDuration := 15
    weather := Weather.cerah
    isIrrigating := false
    irrigationStartTime := none
    irrigationTargetMoisture := 40
    lastUpdate := 0
    moistureDecreaseAccumulator := 0
    moistureThresholdsMin := none
    autoIrrigation := none }

/-- A tank state with the constructor defaults of
src/water-level-manager.js (capacity 90, irrigation volume 7, no
schedules registered), at level `level` and with the given
`autoIrrigation` flag. -/
def mkWater (level : ℚ) (auto : Bool) : WaterSettings :=
  { tankCapacity := 90
    currentLevel := level
    irrigationVolume := 7
    autoIrrigation := auto
    schedules := [] }

/-- A soil state that is mid-irrigation: moisture 20, irrigation active
since instant 0. -/
def soilIrrigating20 : SoilSettings :=
  { mkSoil 20 with isIrrigating := true, irrigationStartTime := some 0 }

/-- C1: the claim says `performIrrigation` checks
`SoilMoistureEngine.isIrrigating` before the consumption gate, so that a
call during active irrigation leaves `currentLevel` unchanged.  The code
has no such check: with irrigation already active (moisture 20, still
below 35), auto-irrigation on and 72 L in the tank, the call consumes
7 L (72 → 65) while the soil layer's `startIrrigation` is a re-entry
no-op — the tank is double-consumed exactly as the spec warns. -/
theorem c1_double_consumption :
    soilIrrigating20.isIrrigating = true ∧
    (performIrrigation (mkWater 72 true) soilIrrigating20 5).1.currentLevel = 65 ∧
    (performIrrigation (mkWater 72 true) soilIrrigating20 5).2.1 = soilIrrigating20 ∧
    (performIrrigation (mkWater 72 true) soilIrrigating20 5).2.2 =
      IrrigationOutcome.success := by
  refine ⟨rfl, ?_, ?_, ?_⟩ <;>
    norm_num [performIrrigation, startIrrigation, soilIrrigating20, mkSoil, mkWater]

/-- C2 counterexample: a manual trigger is a direct `performIrrigation`
call; at moisture 40 (≥ 35) with auto-irrigation on and a full-enough
tank it does not execute — the outcome is `SoilAlreadyWet`, no water is
consumed and soil irrigation is not started, contradicting the claimed
manual/scheduled asymmetry. -/
theorem c2_counterexample :
    35 ≤ (mkSoil 40).currentMoisture ∧
    (performIrrigation (mkWater 72 true) (mkSoil 40) 0).2.2 =
      IrrigationOutcome.soilAlreadyWet ∧
    (performIrrigation (mkWater 72 true) (mkSoil 40) 0).1.currentLevel = 72 ∧
    (performIrrigation (mkWater 72 true) (mkSoil 40) 0).2.1.isIrrigating = false := by
  refine ⟨?_, ?_, ?_, ?_⟩ <;> norm_num [performIrrigation, mkSoil, mkWater]

/-- C2 amended: when `currentMoisture ≥ 35` (and the auto-irrigation
gate before it passes), every trigger — manual or scheduled — fails with
`SoilAlreadyWet`: the 35% gate sits inside `performIrrigation` itself
and applies regardless of trigger source, leaving both states unchanged;
the scheduled path additionally skips earlier because
`shouldTriggerIrrigation` is false at the default threshold. -/
theorem c2_amended (w : WaterSettings) (s : SoilSettings) (now : ℚ)
    (hauto : w.autoIrrigation = true) (hm : 35 ≤ s.currentMoisture) :
    performIrrigation w s now = (w, s, IrrigationOutcome.soilAlreadyWet) ∧
    (s.moistureThresholdsMin = none → shouldTriggerIrrigation s = false) := by
  constructor
  · simp [performIrrigation, hauto, hm]
  · intro hthr
    simp [shouldTriggerIrrigation, hthr, not_lt.mpr hm]

/-- C2 amended, witness at moisture 40, level 72. -/
theorem c2_amended_witness :
    (mkWater 72 true).autoIrrigation = true ∧
    35 ≤ (mkSoil 40).currentMoisture ∧
    (performIrrigation (mkWater 72 true) (mkSoil 40) 0 =
        (mkWater 72 true, mkSoil 40, IrrigationOutcome.soilAlreadyWet) ∧
      ((mkSoil 40).moistureThresholdsMin = none →
        shouldTriggerIrrigation (mkSoil 40) = false)) :=
  ⟨rfl, by norm_num [mkSoil],
    c2_amended (mkWater 72 true) (mkSoil 40) 0 rfl (by norm_num [mkSoil])⟩

/-- C4 counterexample: with insufficient water (5 L < 7 L) but the
default soil moisture 45, the call does not fail with
`InsufficientWater` — the soil gate precedes the water gate in the code,
so the outcome is `SoilAlreadyWet`. -/
theorem c4_counterexample :
    (mkWater 5 true).currentLevel < (mkWater 5 true).irrigationVolume ∧
    (performIrrigation (mkWater 5 true) (mkSoil 45) 0).2.2 ≠
      IrrigationOutcome.insufficientWater := by
  constructor
  · norm_num [mkWater]
  · have h : (performIrrigation (mkWater 5 true) (mkSoil 45) 0).2.2 =
        IrrigationOutcome.soilAlreadyWet := by
      norm_num [performIrrigation, mkSoil, mkWater]
    rw [h]
    decide

/-- C4 amended: when the tank holds less than `irrigationVolume`, the
call never mutates tank or soil state, and — provided the two gates the
code checks first pass (auto-irrigation on, moisture below 35) — it
fails with `InsufficientWater`. -/
theorem c4_amended (w : WaterSettings) (s : SoilSettings) (now : ℚ)
    (hlt : w.currentLevel < w.irrigationVolume) :
    (performIrrigation w s now).1 = w ∧
    (performIrrigation w s now).2.1 = s ∧
    (w.autoIrrigation = true → s.currentMoisture < 35 →
      (performIrrigation w s now).2.2 = IrrigationOutcome.insufficientWater) := by
  unfold performIrrigation
  split_ifs with h1 h2 h3
  · exact ⟨rfl, rfl, fun ha _ => absurd h1 (by simp [ha])⟩
  · exact ⟨rfl, rfl, fun _ hm => absurd h2 (not_le.mpr hm)⟩
  · exact absurd h3 (not_le.mpr hlt)
  · exact ⟨rfl, rfl, fun _ _ => rfl⟩

/-- C4 amended, witness at the spec's inputs (level 5, volume 7) with
moisture 30. -/
theorem c4_amended_witness :
    (mkWater 5 true).currentLevel < (mkWater 5 true).irrigationVolume ∧
    ((performIrrigation (mkWater 5 true) (mkSoil 30) 0).1 = mkWater 5 true ∧
      (performIrrigation (mkWater 5 true) (mkSoil 30) 0).2.1 = mkSoil 30 ∧
      ((mkWater 5 true).autoIrrigation = true → (mkSoil 30).currentMoisture < 35 →
        (performIrrigation (mkWater 5 true) (mkSoil 30) 0).2.2 =
          IrrigationOutcome.insufficientWater)) :=
  ⟨by norm_num [mkWater],
    c4_amended (mkWater 5 true) (mkSoil 30) 0 (by norm_num [mkWater])⟩

/-- C7 counterexample: with `autoIrrigation = false`, a manual
`performIrrigation` call does not proceed — it fails with
`AutoIrrigationDisabled`, consuming nothing and starting nothing,
contradicting the claim that manual triggers are always allowed. -/
theorem c7_counterexample :
    (mkWater 72 false).autoIrrigation = false ∧
    (performIrrigation (mkWater 72 false) (mkSoil 30) 0).2.2 =
      IrrigationOutcome.autoDisabled ∧
    (performIrrigation (mkWater 72 false) (mkSoil 30) 0).1.currentLevel = 72 ∧
    (performIrrigation (mkWater 72 false) (mkSoil 30) 0).2.1.isIrrigating = false := by
  refine ⟨rfl, ?_, ?_, ?_⟩ <;> norm_num [performIrrigation, mkSoil, mkWater]

/-- C7 amended: the `autoIrrigation` gate applies to every trigger
source: with it off, `performIrrigation` fails with
`AutoIrrigationDisabled` and consumes no water; the manual-path wrapper
installed by `syncWithWaterManager` nevertheless starts the soil ramp
(without any tank consumption) whenever the tank holds enough water. -/
theorem c7_amended (w : WaterSettings) (s : SoilSettings) (now : ℚ)
    (hauto : w.autoIrrigation = false) :
    performIrrigation w s now = (w, s, IrrigationOutcome.autoDisabled) ∧
    (w.irrigationVolume ≤ w.currentLevel →
      performIrrigationWrapped w s now = (w, startIrrigation s now, true)) := by
  have h1 : performIrrigation w s now = (w, s, IrrigationOutcome.autoDisabled) := by
    simp [performIrrigation, hauto]
  refine ⟨h1, fun hle => ?_⟩
  simp [performIrrigationWrapped, hle, h1]

/-- C7 amended, witness at level 72, moisture 30, auto-irrigation off. -/
theorem c7_amended_witness :
    (mkWater 72 false).autoIrrigation = false ∧
    (performIrrigation (mkWater 72 false) (mkSoil 30) 0 =
        (mkWater 72 false, mkSoil 30, IrrigationOutcome.autoDisabled) ∧
      ((mkWater 72 false).irrigationVolume ≤ (mkWater 72 false).currentLevel →
        performIrrigationWrapped (mkWater 72 false) (mkSoil 30) 0 =
          (mkWater 72 false, startIrrigation (mkSoil 30) 0, true))) :=
  ⟨rfl, c7_amended (mkWater 72 false) (mkSoil 30) 0 rfl⟩

/-- C8: for any random draw `r ∈ [0, 1)`, `applyRainEffect` puts the
moisture in [75, 90] and resets the evaporation accumulator to 0; and
`setWeather` into rain from a non-rain condition applies exactly this
rain effect. -/
theorem c8_rain (s : SoilSettings) (r : ℚ) (h0 : 0 ≤ r) (h1 : r < 1) :
    75 ≤ (applyRainEffect s r).currentMoisture ∧
    (applyRainEffect s r).currentMoisture ≤ 90 ∧
    (applyRainEffect s r).moistureDecreaseAccumulator = 0 ∧
    (s.weather ≠ Weather.hujan →
      setWeather s Weather.hujan r = applyRainEffect { s with weather := Weather.hujan } r) := by
  have hmax : max 0 (75 + r * 15) = 75 + r * 15 := by
    apply max_eq_right
    linarith
  have hmin : min 100 (75 + r * 15) = 75 + r * 15 := by
    apply min_eq_right
    linarith
  refine ⟨?_, ?_, rfl, fun hw => ?_⟩
  · simp only [applyRainEffect, hmax, hmin]
    linarith
  · simp only [applyRainEffect, hmax, hmin]
    linarith
  · simp [setWeather, hw]

/-- C8, witness at the default state with `r = 1/2`. -/
theorem c8_rain_witness :
    (0 : ℚ) ≤ 1 / 2 ∧ (1 / 2 : ℚ) < 1 ∧
    (75 ≤ (applyRainEffect (mkSoil 45) (1 / 2)).currentMoisture ∧
      (applyRainEffect (mkSoil 45) (1 / 2)).currentMoisture ≤ 90 ∧
      (applyRainEffect (mkSoil 45) (1 / 2)).moistureDecreaseAccumulator = 0 ∧
      ((mkSoil 45).weather ≠ Weather.hujan →
        setWeather (mkSoil 45) Weather.hujan (1 / 2) =
          applyRainEffect { mkSoil 45 with weather := Weather.hujan } (1 / 2))) :=
  ⟨by norm_num, by norm_num,
    c8_rain (mkSoil 45) (1 / 2) (by norm_num) (by norm_num)⟩

/-- The load-time validity predicate of the claim, negated: a
`currentMoisture` field of the wrong type, `NaN`, or outside [0, 100]. -/
def failsMoistureValidity : JsVal → Prop
  | .num q => q < 0 ∨ 100 < q
  | .nan => True
  | .other => True

/-- C9: a persisted soil-moisture record whose `currentMoisture` fails
its validity predicate (wrong type, NaN, or out of [0, 100]) loads as
the default 45; an unparseable record also loads as 45.  Loading is a
total function of the stored value: no corruption is propagated. -/
theorem c9_load_recovery (r : RawSoilRecord)
    (hbad : failsMoistureValidity r.currentMoisture) :
    startupMoisture (StoredSoil.parsed r) = JsVal.num 45 ∧
    startupMoisture StoredSoil.malformed = JsVal.num 45 := by
  constructor
  · cases hv : r.currentMoisture with
    | num q =>
      rw [hv] at hbad
      rcases hbad with hlt | hgt
      · simp [startupMoisture, domSanitize, hv, JsVal.isValidNumber,
          loadSettingsMoisture, hlt]
      · simp [startupMoisture, domSanitize, hv, JsVal.isValidNumber,
          loadSettingsMoisture, hgt]
    | nan => simp [startupMoisture, domSanitize, hv, JsVal.isValidNumber,
        loadSettingsMoisture]
    | other => simp [startupMoisture, domSanitize, hv, JsVal.isValidNumber,
        loadSettingsMoisture]
  · simp [startupMoisture, domSanitize, loadSettingsMoisture]

/-- C9, witness at a record persisted with `currentMoisture = NaN`. -/
theorem c9_load_recovery_witness :
    failsMoistureValidity (RawSoilRecord.mk JsVal.nan (JsVal.num 15)).currentMoisture ∧
    (startupMoisture (StoredSoil.parsed (RawSoilRecord.mk JsVal.nan (JsVal.num 15))) =
        JsVal.num 45 ∧
      startupMoisture StoredSoil.malformed = JsVal.num 45) :=
  ⟨trivial, c9_load_recovery (RawSoilRecord.mk JsVal.nan (JsVal.num 15)) trivial⟩

/-- C10: `saveSettings` writes the raw in-memory record verbatim; the
validated copy `settingsToSave` it builds is discarded, so an in-memory
`NaN` moisture is persisted as `NaN` even though the validated copy
would have substituted 45. -/
theorem c10_save_raw (s : RawSoilRecord) :
    saveSettings s = s ∧
    (s.currentMoisture = JsVal.nan →
      (saveSettings s).currentMoisture = JsVal.nan ∧
      (settingsToSave s).currentMoisture = JsVal.num 45) := by
  refine ⟨rfl, fun hnan => ⟨hnan, ?_⟩⟩
  simp [settingsToSave, hnan, JsVal.isValidNumber]

/-- C10, witness at an in-memory record holding `NaN` moisture. -/
theorem c10_save_raw_witness :
    saveSettings (RawSoilRecord.mk JsVal.nan (JsVal.num 15)) =
        RawSoilRecord.mk JsVal.nan (JsVal.num 15) ∧
      ((RawSoilRecord.mk JsVal.nan (JsVal.num 15)).currentMoisture = JsVal.nan →
        (saveSettings (RawSoilRecord.mk JsVal.nan (JsVal.num 15))).currentMoisture =
            JsVal.nan ∧
          (settingsToSave (RawSoilRecord.mk JsVal.nan (JsVal.num 15))).currentMoisture =
            JsVal.num 45) :=
  c10_save_raw (RawSoilRecord.mk JsVal.nan (JsVal.num 15))

/-- Closed form of the accumulator loop for the cerah profile
(rate 1, interval 15) on an integral accumulator `a`: provided the
moisture floor is never hit (`a / 15 ≤ m`), the loop removes exactly
`a / 15` percent and leaves `a % 15` minutes in the accumulator. -/
theorem evapLoop_nat (a : ℕ) :
    ∀ m : ℚ, ((a / 15 : ℕ) : ℚ) ≤ m →
      evapLoop 1 15 m (a : ℚ) = (m - ((a / 15 : ℕ) : ℚ), ((a % 15 : ℕ) : ℚ)) := by
  induction a using Nat.strong_induction_on with
  | _ a ih =>
    intro m hm
    by_cases hlt : a < 15
    · have hnotle : ¬((15 : ℚ) ≤ (a : ℚ)) := by
        push_neg
        exact_mod_cast hlt
      rw [evapLoop_unfold, dif_neg (by tauto)]
      have e1 : a / 15 = 0 := Nat.div_eq_of_lt hlt
      have e2 : a % 15 = a := Nat.mod_eq_of_lt hlt
      rw [e1, e2]
      simp
    · push_neg at hlt
      have h1 : 1 ≤ a / 15 := (Nat.one_le_div_iff (by norm_num)).mpr hlt
      have hm1 : (1 : ℚ) ≤ m := le_trans (by exact_mod_cast h1) hm
      rw [evapLoop_unfold, dif_pos ⟨by norm_num, by exact_mod_cast hlt⟩]
      have hmax : max 0 (m - 1) = m - 1 := max_eq_right (by linarith)
      have hcast : (a : ℚ) - 15 = ((a - 15 : ℕ) : ℚ) := by
        rw [Nat.cast_sub hlt]
        norm_num
      have e1 : (a - 15) / 15 = a / 15 - 1 := by omega
      have e3 : ((a / 15 - 1 : ℕ) : ℚ) = ((a / 15 : ℕ) : ℚ) - 1 := by
        rw [Nat.cast_sub h1]
        norm_num
      have ihm : (((a - 15) / 15 : ℕ) : ℚ) ≤ m - 1 := by
        rw [e1, e3]
        linarith
      rw [hmax, hcast, ih (a - 15) (by omega) (m - 1) ihm]
      have e2 : (a - 15) % 15 = a % 15 := by omega
      rw [e1, e2, e3, Prod.mk.injEq]
      exact ⟨by ring, rfl⟩

/-- Field-wise description of a single `updateMoisture` tick with clear
weather and no irrigation: the elapsed minutes (clamped at 60) are fed
through the accumulator loop, the moisture is clamped to [0, 100], the
update instant is recorded, and the mode fields are untouched. -/
theorem updateMoisture_cerah (s : SoilSettings) (now : ℚ)
    (h1 : s.isIrrigating = false) (h2 : s.weather = Weather.cerah) :
    (updateMoisture s now).currentMoisture =
      max 0 (min 100 (evapLoop 1 15 s.currentMoisture
        (s.moistureDecreaseAccumulator + min (now - s.lastUpdate) 60)).1) ∧
    (updateMoisture s now).moistureDecreaseAccumulator =
      (evapLoop 1 15 s.currentMoisture
        (s.moistureDecreaseAccumulator + min (now - s.lastUpdate) 60)).2 ∧
    (updateMoisture s now).lastUpdate = now ∧
    (updateMoisture s now).isIrrigating = false ∧
    (updateMoisture s now).weather = Weather.cerah := by
  have hne : Weather.cerah ≠ Weather.hujan := by decide
  refine ⟨?_, ?_, ?_, ?_, ?_⟩ <;>
    norm_num [updateMoisture, processNaturalEvaporation, getEvaporationParameters,
      h1, h2, eq_false hne]

/-- Invariant of `n` one-minute ticks from a fresh clear-weather state at
moisture `m0 ≤ 100`: after `k ≤ n` ticks the moisture has dropped by
exactly `k / 15` percent and the accumulator holds `k mod 15` minutes
(provided `n / 15 ≤ m0`, so the floor at 0 is never hit). -/
theorem tickSeq_cerah (m0 : ℚ) (n : ℕ)
    (hm : ((n / 15 : ℕ) : ℚ) ≤ m0) (h100 : m0 ≤ 100) :
    ∀ k, k ≤ n →
      (tickSeq (mkSoil m0) k).currentMoisture = m0 - ((k / 15 : ℕ) : ℚ) ∧
      (tickSeq (mkSoil m0) k).moistureDecreaseAccumulator = ((k % 15 : ℕ) : ℚ) ∧
      (tickSeq (mkSoil m0) k).lastUpdate = (k : ℚ) ∧
      (tickSeq (mkSoil m0) k).isIrrigating = false ∧
      (tickSeq (mkSoil m0) k).weather = Weather.cerah := by
  intro k
  induction k with
  | zero => intro _; simp [tickSeq, mkSoil]
  | succ k ih =>
    intro hk1
    obtain ⟨im, ia, il, ii, iw⟩ := ih (Nat.le_of_succ_le hk1)
    have hstep := updateMoisture_cerah (tickSeq (mkSoil m0) k)
      ((mkSoil m0).lastUpdate + ((k + 1 : ℕ) : ℚ)) ii iw
    have hlu0 : (mkSoil m0).lastUpdate = 0 := rfl
    have hdiff : (mkSoil m0).lastUpdate + ((k + 1 : ℕ) : ℚ) -
        (tickSeq (mkSoil m0) k).lastUpdate = 1 := by
      rw [hlu0, il]
      push_cast
      ring
    have hmin : min ((mkSoil m0).lastUpdate + ((k + 1 : ℕ) : ℚ) -
        (tickSeq (mkSoil m0) k).lastUpdate) 60 = 1 := by
      rw [hdiff]
      norm_num
    have hacc : (tickSeq (mkSoil m0) k).moistureDecreaseAccumulator +
        min ((mkSoil m0).lastUpdate + ((k + 1 : ℕ) : ℚ) -
          (tickSeq (mkSoil m0) k).lastUpdate) 60 = ((k % 15 + 1 : ℕ) : ℚ) := by
      rw [hmin, ia]
      push_cast
      ring
    have hdivsum : k / 15 + (k % 15 + 1) / 15 = (k + 1) / 15 := by omega
    have hle1 : (k + 1) / 15 ≤ n / 15 := Nat.div_le_div_right hk1
    have hleq : (((k + 1) / 15 : ℕ) : ℚ) ≤ m0 :=
      le_trans (by exact_mod_cast hle1) hm
    have hdivq : ((k / 15 : ℕ) : ℚ) + (((k % 15 + 1) / 15 : ℕ) : ℚ) =
        (((k + 1) / 15 : ℕ) : ℚ) := by exact_mod_cast congrArg (Nat.cast (R := ℚ)) hdivsum
    have hmloop : (((k % 15 + 1) / 15 : ℕ) : ℚ) ≤ m0 - ((k / 15 : ℕ) : ℚ) := by
      linarith
    have hloop := evapLoop_nat (k % 15 + 1) (m0 - ((k / 15 : ℕ) : ℚ)) hmloop
    have hmodsum : (k % 15 + 1) % 15 = (k + 1) % 15 := by omega
    have hmnew : m0 - ((k / 15 : ℕ) : ℚ) - (((k % 15 + 1) / 15 : ℕ) : ℚ) =
        m0 - (((k + 1) / 15 : ℕ) : ℚ) := by linarith
    have hnonneg : (0 : ℚ) ≤ m0 - (((k + 1) / 15 : ℕ) : ℚ) := by linarith
    have hle100 : m0 - (((k + 1) / 15 : ℕ) : ℚ) ≤ 100 := by
      have : (0 : ℚ) ≤ (((k + 1) / 15 : ℕ) : ℚ) := by positivity
      linarith
    obtain ⟨fm, fa, fl, fi, fw⟩ := hstep
    have htick : tickSeq (mkSoil m0) (k + 1) =
        updateMoisture (tickSeq (mkSoil m0) k)
          ((mkSoil m0).lastUpdate + ((k + 1 : ℕ) : ℚ)) := rfl
    refine ⟨?_, ?_, ?_, ?_, ?_⟩
    · rw [htick, fm, im, hacc, hloop]
      rw [hmnew, min_eq_right hle100, max_eq_right hnonneg]
    · rw [htick, fa, im, hacc, hloop]
      show (((k % 15 + 1) % 15 : ℕ) : ℚ) = (((k + 1) % 15 : ℕ) : ℚ)
      exact_mod_cast congrArg (Nat.cast (R := ℚ)) hmodsum
    · rw [htick, fl, hlu0]
      push_cast
      ring
    · rw [htick]; exact fi
    · rw [htick]; exact fw

/-- C3 counterexample: with the default moisture 45, 75 one-minute ticks
of clear weather remove `⌊75/15⌋ = 5` percent (45 → 40), but a single
75-minute tick is clamped to 60 simulated minutes by `updateMoisture`
and removes only 4 percent (45 → 41) — the claimed equality of the two
tick granularities fails for `n = 75`. -/
theorem c3_counterexample :
    (tickSeq (mkSoil 45) 75).currentMoisture = 45 - ((75 / 15 : ℕ) : ℚ) ∧
    (updateMoisture (mkSoil 45) 75).currentMoisture ≠ 45 - ((75 / 15 : ℕ) : ℚ) := by
  constructor
  · exact (tickSeq_cerah 45 75 (by norm_num) (by norm_num) 75 le_rfl).1
  · have h := (updateMoisture_cerah (mkSoil 45) 75 rfl rfl).1
    have hacc : (mkSoil 45).moistureDecreaseAccumulator +
        min ((75 : ℚ) - (mkSoil 45).lastUpdate) 60 = ((60 : ℕ) : ℚ) := by
      norm_num [mkSoil]
    have hm45 : (mkSoil 45).currentMoisture = 45 := rfl
    rw [h, hacc, hm45, evapLoop_nat 60 45 (by norm_num)]
    norm_num

/-- C3 amended: for `0 ≤ n ≤ 60` (one tick simulates at most 60
minutes), with clear weather, no irrigation, a fresh accumulator and
starting moisture `m0 ≤ 100` large enough that the floor at 0 is not
hit (`⌊n/15⌋ ≤ m0`), the total decrease after `n` minutes is exactly
`⌊n/15⌋` percent whether the minutes arrive as `n` one-minute ticks or
as one single `n`-minute tick. -/
theorem c3_amended (m0 : ℚ) (n : ℕ)
    (hm : ((n / 15 : ℕ) : ℚ) ≤ m0) (h100 : m0 ≤ 100) (hn : n ≤ 60) :
    (tickSeq (mkSoil m0) n).currentMoisture = m0 - ((n / 15 : ℕ) : ℚ) ∧
    (updateMoisture (mkSoil m0) (n : ℚ)).currentMoisture =
      m0 - ((n / 15 : ℕ) : ℚ) := by
  constructor
  · exact (tickSeq_cerah m0 n hm h100 n le_rfl).1
  · have h := (updateMoisture_cerah (mkSoil m0) (n : ℚ) rfl rfl).1
    have hacc : (mkSoil m0).moistureDecreaseAccumulator +
        min ((n : ℚ) - (mkSoil m0).lastUpdate) 60 = ((n : ℕ) : ℚ) := by
      have hle : ((n : ℕ) : ℚ) ≤ 60 := by exact_mod_cast hn
      simp [mkSoil, min_eq_left hle]
    have hmcur : (mkSoil m0).currentMoisture = m0 := rfl
    rw [h, hacc, hmcur, evapLoop_nat n m0 hm]
    have hnonneg : (0 : ℚ) ≤ m0 - ((n / 15 : ℕ) : ℚ) := by linarith
    have hle100 : m0 - ((n / 15 : ℕ) : ℚ) ≤ 100 := by
      have : (0 : ℚ) ≤ ((n / 15 : ℕ) : ℚ) := by positivity
      linarith
    show max 0 (min 100 (m0 - ((n / 15 : ℕ) : ℚ))) = m0 - ((n / 15 : ℕ) : ℚ)
    rw [min_eq_right hle100, max_eq_right hnonneg]

/-- C3 amended, witness: 30 minutes from moisture 45, both granularities
drop exactly 2 percent. -/
theorem c3_amended_witness :
    ((30 / 15 : ℕ) : ℚ) ≤ 45 ∧ (45 : ℚ) ≤ 100 ∧ 30 ≤ 60 ∧
    ((tickSeq (mkSoil 45) 30).currentMoisture = 45 - ((30 / 15 : ℕ) : ℚ) ∧
      (updateMoisture (mkSoil 45) ((30 : ℕ) : ℚ)).currentMoisture =
        45 - ((30 / 15 : ℕ) : ℚ)) :=
  ⟨by norm_num, by norm_num, by norm_num,
    c3_amended 45 30 (by norm_num) (by norm_num) (by norm_num)⟩

/-- `processIrrigationIncrease` changes only `currentMoisture`. -/
theorem processIrrigationIncrease_fields (s : SoilSettings) (timeDiff now : ℚ) :
    (processIrrigationIncrease s timeDiff now).irrigationStartTime =
        s.irrigationStartTime ∧
      (processIrrigationIncrease s timeDiff now).irrigationDuration =
        s.irrigationDuration ∧
      (processIrrigationIncrease s timeDiff now).isIrrigating = s.isIrrigating := by
  by_cases h : now - s.irrigationStartTime.getD now ≤ s.irrigationDuration <;>
    simp [processIrrigationIncrease, h]

/-- Value of `processIrrigationIncrease` inside the irrigation window:
the recomputed target `min 40 (max 25 (current + 15))`, the derived
rate, the added amount, capped at the target and then at 40. -/
theorem processIrrigationIncrease_val (s : SoilSettings) (timeDiff now t0 : ℚ)
    (hstart : s.irrigationStartTime = some t0)
    (hin : now - t0 ≤ s.irrigationDuration) :
    (processIrrigationIncrease s timeDiff now).currentMoisture =
      min 40 (min (min 40 (max 25 (s.currentMoisture + 15)))
        (s.currentMoisture +
          (min 40 (max 25 (s.currentMoisture + 15)) - s.currentMoisture) /
            s.irrigationDuration * timeDiff)) := by
  simp [processIrrigationIncrease, hstart, hin]

/-- Inside the irrigation window, the engine's double cap
`min 40 (min target (c + rate·dt))` coincides with the spec's single
hard cap `min 40 (c + rate·dt)`: for `c ≤ 40` the added amount never
overshoots the recomputed target, and for `c > 40` the target is
exactly 40. -/
theorem irrStep_eq (c dur dt : ℚ) (hdur : 0 < dur) (hdt0 : 0 ≤ dt)
    (hdt : dt ≤ dur) :
    min 40 (min (min 40 (max 25 (c + 15)))
        (c + (min 40 (max 25 (c + 15)) - c) / dur * dt)) =
      min 40 (c + (min 40 (max 25 (c + 15)) - c) / dur * dt) := by
  rcases le_or_lt c 40 with hc | hc
  · have ht : c ≤ min 40 (max 25 (c + 15)) :=
      le_min hc (le_max_of_le_right (by linarith))
    have hamt : (min 40 (max 25 (c + 15)) - c) / dur * dt ≤
        min 40 (max 25 (c + 15)) - c := by
      have h1 : (min 40 (max 25 (c + 15)) - c) / dur * dt ≤
          (min 40 (max 25 (c + 15)) - c) / dur * dur :=
        mul_le_mul_of_nonneg_left hdt (div_nonneg (by linarith) hdur.le)
      rwa [div_mul_cancel₀ _ (ne_of_gt hdur)] at h1
    have hxle : c + (min 40 (max 25 (c + 15)) - c) / dur * dt ≤
        min 40 (max 25 (c + 15)) := by linarith
    rw [min_eq_right hxle]
  · have ht : min 40 (max 25 (c + 15)) = 40 :=
      min_eq_left (le_trans (by linarith : (40 : ℚ) ≤ c + 15) (le_max_right _ _))
    rw [ht, ← min_assoc, min_self]

/-- Field-wise description of a single `updateMoisture` tick while
irrigation is active: the ramp step is applied to the clamped elapsed
time, the result is clamped to [0, 100], and the irrigation bookkeeping
fields are untouched. -/
theorem updateMoisture_irr (s : SoilSettings) (now : ℚ)
    (h1 : s.isIrrigating = true) :
    (updateMoisture s now).currentMoisture =
      max 0 (min 100
        (processIrrigationIncrease s (min (now - s.lastUpdate) 60) now).currentMoisture) ∧
    (updateMoisture s now).isIrrigating = true ∧
    (updateMoisture s now).lastUpdate = now ∧
    (updateMoisture s now).irrigationStartTime = s.irrigationStartTime ∧
    (updateMoisture s now).irrigationDuration = s.irrigationDuration := by
  obtain ⟨f1, f2, f3⟩ := processIrrigationIncrease_fields s (min (now - s.lastUpdate) 60) now
  refine ⟨?_, ?_, ?_, ?_, ?_⟩ <;>
    simp [updateMoisture, h1, f1, f2, f3]

/-- The irrigation ramp as the specification words it, one one-minute
tick at a time, composed with the engine's [0, 100] clamp: each tick
recomputes the target from the current value as
`min 40 (max 25 (current + 15))`, derives
`rate = (target - current) / duration`, adds `rate · 1`, and hard-caps
at 40. -/
def specRamp (dur m : ℚ) : ℕ → ℚ
  | 0 => m
  | k + 1 =>
    let c := specRamp dur m k
    let target := min 40 (max 25 (c + 15))
    max 0 (min 100 (min 40 (c + (target - c) / dur * 1)))

/-- Invariant of the drip-irrigation ramp started at moisture 20 with
duration 15: after `k ≤ 15` one-minute ticks the engine's moisture
equals the spec's recomputed-target ramp value, which stays in [0, 40],
and the irrigation bookkeeping fields are unchanged. -/
theorem tickSeq_irr : ∀ k, k ≤ 15 →
    (tickSeq soilIrrigating20 k).currentMoisture = specRamp 15 20 k ∧
    0 ≤ specRamp 15 20 k ∧ specRamp 15 20 k ≤ 40 ∧
    (tickSeq soilIrrigating20 k).isIrrigating = true ∧
    (tickSeq soilIrrigating20 k).irrigationStartTime = some 0 ∧
    (tickSeq soilIrrigating20 k).irrigationDuration = 15 ∧
    (tickSeq soilIrrigating20 k).lastUpdate = (k : ℚ) := by
  intro k
  induction k with
  | zero =>
    intro _
    refine ⟨rfl, by norm_num [specRamp], by norm_num [specRamp], rfl, rfl, rfl, rfl⟩
  | succ k ih =>
    intro hk1
    obtain ⟨im, i0, i40, ii, is, id, il⟩ := ih (Nat.le_of_succ_le hk1)
    have htick : tickSeq soilIrrigating20 (k + 1) =
        updateMoisture (tickSeq soilIrrigating20 k)
          (soilIrrigating20.lastUpdate + ((k + 1 : ℕ) : ℚ)) := rfl
    have hlu0 : soilIrrigating20.lastUpdate = 0 := rfl
    obtain ⟨f1, f2, f3, f4, f5⟩ := updateMoisture_irr (tickSeq soilIrrigating20 k)
      (soilIrrigating20.lastUpdate + ((k + 1 : ℕ) : ℚ)) ii
    have hmin1 : min (soilIrrigating20.lastUpdate + ((k + 1 : ℕ) : ℚ) -
        (tickSeq soilIrrigating20 k).lastUpdate) 60 = 1 := by
      rw [hlu0, il]
      push_cast
      norm_num
    have hin : soilIrrigating20.lastUpdate + ((k + 1 : ℕ) : ℚ) - 0 ≤
        (tickSeq soilIrrigating20 k).irrigationDuration := by
      rw [hlu0, id]
      push_cast
      have : ((k : ℚ) + 1) ≤ 15 := by exact_mod_cast hk1
      linarith
    have hval := processIrrigationIncrease_val (tickSeq soilIrrigating20 k)
      (min (soilIrrigating20.lastUpdate + ((k + 1 : ℕ) : ℚ) -
        (tickSeq soilIrrigating20 k).lastUpdate) 60)
      (soilIrrigating20.lastUpdate + ((k + 1 : ℕ) : ℚ)) 0 is hin
    rw [hmin1, im, id] at hval
    have hstep := irrStep_eq (specRamp 15 20 k) 15 1 (by norm_num) (by norm_num)
      (by norm_num)
    have hc : specRamp 15 20 k ≤ min 40 (max 25 (specRamp 15 20 k + 15)) :=
      le_min i40 (le_max_of_le_right (by linarith))
    have hamt : 0 ≤ (min 40 (max 25 (specRamp 15 20 k + 15)) - specRamp 15 20 k) /
        15 * 1 := by
      have := div_nonneg (by linarith : (0 : ℚ) ≤
        min 40 (max 25 (specRamp 15 20 k + 15)) - specRamp 15 20 k)
        (by norm_num : (0 : ℚ) ≤ 15)
      linarith
    have hnext0 : 0 ≤ min 40 (specRamp 15 20 k +
        (min 40 (max 25 (specRamp 15 20 k + 15)) - specRamp 15 20 k) / 15 * 1) :=
      le_min (by norm_num) (by linarith)
    have hnext40 : min 40 (specRamp 15 20 k +
        (min 40 (max 25 (specRamp 15 20 k + 15)) - specRamp 15 20 k) / 15 * 1) ≤ 40 :=
      min_le_left _ _
    have hspecnext : specRamp 15 20 (k + 1) =
        min 40 (specRamp 15 20 k +
          (min 40 (max 25 (specRamp 15 20 k + 15)) - specRamp 15 20 k) / 15 * 1) := by
      show max 0 (min 100 _) = _
      rw [min_eq_right (by linarith), max_eq_right hnext0]
    have b0 : 0 ≤ specRamp 15 20 (k + 1) := by rw [hspecnext]; exact hnext0
    have b40 : specRamp 15 20 (k + 1) ≤ 40 := by rw [hspecnext]; exact hnext40
    refine ⟨?_, ?_, ?_, ?_, ?_, ?_, ?_⟩
    · rw [htick, f1, hmin1, hval, hstep, ← hspecnext,
        min_eq_right (by linarith), max_eq_right b0]
    · rw [hspecnext]; exact hnext0
    · rw [hspecnext]; exact hnext40
    · rw [htick]; exact f2
    · rw [htick, f4]; exact is
    · rw [htick, f5]; exact id
    · rw [htick, f3, hlu0]
      push_cast
      ring

/-- C6: within the irrigation window, each tick's result equals the
spec's recomputed-target ramp formula
`min 40 (current + (min 40 (max 25 (current+15)) - current)/duration · elapsed)`
(the engine's intermediate cap at the recomputed target never differs
from the single hard cap at 40), the result never exceeds 40, and the
15-minute drip run started from 20% follows the recomputed-target ramp,
whose completion value differs from the naive linear ramp to the target
fixed at irrigation start (which would end exactly at 35). -/
theorem c6_recomputed_ramp (s : SoilSettings) (timeDiff now t0 : ℚ)
    (hstart : s.irrigationStartTime = some t0)
    (hin : now - t0 ≤ s.irrigationDuration)
    (hdur : 0 < s.irrigationDuration)
    (hdt0 : 0 ≤ timeDiff) (hdt : timeDiff ≤ s.irrigationDuration) :
    (processIrrigationIncrease s timeDiff now).currentMoisture =
      min 40 (s.currentMoisture +
        (min 40 (max 25 (s.currentMoisture + 15)) - s.currentMoisture) /
          s.irrigationDuration * timeDiff) ∧
    (processIrrigationIncrease s timeDiff now).currentMoisture ≤ 40 ∧
    (tickSeq soilIrrigating20 15).currentMoisture = specRamp 15 20 15 ∧
    specRamp 15 20 15 ≠ 35 := by
  have hv := processIrrigationIncrease_val s timeDiff now t0 hstart hin
  have he := irrStep_eq s.currentMoisture s.irrigationDuration timeDiff hdur hdt0 hdt
  refine ⟨?_, ?_, (tickSeq_irr 15 le_rfl).1, ?_⟩
  · rw [hv, he]
  · rw [hv]
    exact min_le_left _ _
  · norm_num [specRamp]

/-- C6, witness: the first minute of the drip run started from 20%. -/
theorem c6_recomputed_ramp_witness :
    soilIrrigating20.irrigationStartTime = some 0 ∧
    (1 : ℚ) - 0 ≤ soilIrrigating20.irrigationDuration ∧
    (0 : ℚ) < soilIrrigating20.irrigationDuration ∧
    (0 : ℚ) ≤ 1 ∧ (1 : ℚ) ≤ soilIrrigating20.irrigationDuration ∧
    ((processIrrigationIncrease soilIrrigating20 1 1).currentMoisture =
        min 40 (soilIrrigating20.currentMoisture +
          (min 40 (max 25 (soilIrrigating20.currentMoisture + 15)) -
              soilIrrigating20.currentMoisture) /
            soilIrrigating20.irrigationDuration * 1) ∧
      (processIrrigationIncrease soilIrrigating20 1 1).currentMoisture ≤ 40 ∧
      (tickSeq soilIrrigating20 15).currentMoisture = specRamp 15 20 15 ∧
      specRamp 15 20 15 ≠ 35) :=
  ⟨rfl, by norm_num [soilIrrigating20, mkSoil], by norm_num [soilIrrigating20, mkSoil],
    by norm_num, by norm_num [soilIrrigating20, mkSoil],
    c6_recomputed_ramp soilIrrigating20 1 1 0 rfl
      (by norm_num [soilIrrigating20, mkSoil])
      (by norm_num [soilIrrigating20, mkSoil]) (by norm_num)
      (by norm_num [soilIrrigating20, mkSoil])⟩

/-- `stopIrrigation` does not change the irrigation duration. -/
theorem stopIrrigation_dur (s : SoilSettings) :
    (stopIrrigation s).irrigationDuration = s.irrigationDuration := by
  unfold stopIrrigation
  split_ifs <;> rfl

/-- `startIrrigation` does not change the irrigation duration. -/
theorem startIrrigation_dur (s : SoilSettings) (now : ℚ) :
    (startIrrigation s now).irrigationDuration = s.irrigationDuration := by
  unfold startIrrigation
  split_ifs <;> rfl

/-- `startIrrigationSys` does not change the irrigation duration. -/
theorem startIrrigationSys_dur (st : SysState) (t : ℕ) :
    (startIrrigationSys st t).soil.irrigationDuration =
      st.soil.irrigationDuration := by
  unfold startIrrigationSys
  split_ifs <;> simp [startIrrigation_dur]

/-- A soil state that is already irrigating never passes
`shouldTriggerIrrigation`. -/
theorem shouldTrigger_false_irr (s : SoilSettings) (h : s.isIrrigating = true) :
    shouldTriggerIrrigation s = false := by
  simp [shouldTriggerIrrigation, h]

/-- Conversely, a state that passes `shouldTriggerIrrigation` is not
irrigating. -/
theorem shouldTrigger_not_irr (s : SoilSettings)
    (h : shouldTriggerIrrigation s = true) : s.isIrrigating = false := by
  simp [shouldTriggerIrrigation] at h
  tauto

/-- While soil irrigation is active, every schedule interval body is a
no-op and consumes nothing. -/
theorem slotCallback_irr (t : ℕ) (slot : ScheduleEntry) (st : SysState)
    (h : st.soil.isIrrigating = true) : slotCallback t slot st = (st, 0) := by
  simp [slotCallback, shouldTrigger_false_irr st.soil h]

/-- While soil irrigation is active, a whole second of schedule
intervals is a no-op. -/
theorem slotsStep_irr (t : ℕ) (slots : List ScheduleEntry) (st : SysState)
    (h : st.soil.isIrrigating = true) : slotsStep t slots st = (st, 0) := by
  induction slots with
  | nil => rfl
  | cons slot rest ih => simp [slotsStep, slotCallback_irr t slot st h, ih]

/-- A pending auto-stop that is not yet due leaves the state alone. -/
theorem processStop_notdue (t : ℕ) (st : SysState) (T : ℚ)
    (h1 : st.stopAt = some T) (h2 : (t : ℚ) < T) : processStop t st = st := by
  simp [processStop, h1, not_le.mpr h2]

/-- `processStop` does not change the irrigation duration. -/
theorem processStop_dur (t : ℕ) (st : SysState) :
    (processStop t st).soil.irrigationDuration = st.soil.irrigationDuration := by
  unfold processStop
  cases hst : st.stopAt with
  | none => rfl
  | some T =>
    dsimp only
    split_ifs <;> simp [stopIrrigation_dur]

/-- While soil irrigation is active and the auto-stop is not due, a whole
scheduler second fires nothing and changes nothing. -/
theorem stepSecond_irr (slots : List ScheduleEntry) (t : ℕ) (st : SysState)
    (T : ℚ) (hIrr : st.soil.isIrrigating = true) (h1 : st.stopAt = some T)
    (h2 : (t : ℚ) < T) : stepSecond slots t st = (st, 0) := by
  rw [stepSecond, processStop_notdue t st T h1 h2]
  exact slotsStep_irr t slots st hIrr

/-- While soil irrigation is active with an auto-stop due only after the
whole run, the scheduler run fires nothing and changes nothing. -/
theorem runSched_irr (slots : List ScheduleEntry) :
    ∀ (k t : ℕ) (st : SysState) (T : ℚ),
      st.soil.isIrrigating = true → st.stopAt = some T →
      ((t + k : ℕ) : ℚ) ≤ T → runSched slots t k st = (st, 0) := by
  intro k
  induction k with
  | zero => intro t st T _ _ _; rfl
  | succ k ih =>
    intro t st T hIrr hstop hle
    push_cast at hle
    have ht : (t : ℚ) < T := by linarith
    have hs := stepSecond_irr slots t st T hIrr hstop ht
    have hrec := ih (t + 1) st T hIrr hstop (by push_cast; linarith)
    simp only [runSched, hs, hrec]

/-- Effect of the deployed irrigation call from a non-irrigating state:
the irrigation duration is preserved, and when tank water is consumed
the result is irrigating with the auto-stop scheduled
`60 · irrigationDuration` seconds later. -/
theorem coordPerformWrapped_post (t : ℕ) (st : SysState)
    (hni : st.soil.isIrrigating = false) :
    (coordPerformWrapped t st).1.soil.irrigationDuration =
        st.soil.irrigationDuration ∧
      ((coordPerformWrapped t st).2 = true →
        (coordPerformWrapped t st).1.soil.isIrrigating = true ∧
        (coordPerformWrapped t st).1.stopAt =
          some ((t : ℚ) + 60 * st.soil.irrigationDuration)) := by
  by_cases h1 : st.water.irrigationVolume ≤ st.water.currentLevel
  · by_cases h2 : st.water.autoIrrigation = false
    · constructor <;>
        simp [coordPerformWrapped, coordPerform, h1, h2, startIrrigationSys,
          startIrrigation, hni]
    · by_cases h3 : 35 ≤ st.soil.currentMoisture
      · constructor <;>
          simp [coordPerformWrapped, coordPerform, h1, h2, h3, startIrrigationSys,
            startIrrigation, hni]
      · constructor <;>
          simp [coordPerformWrapped, coordPerform, h1, h2, h3, startIrrigationSys,
            startIrrigation, hni]
  · simp [coordPerformWrapped, h1]

/-- Per-slot fire bound: each schedule interval body consumes at most
once, preserves the irrigation duration, and after a consumption the
state is irrigating with the auto-stop scheduled
`60 · irrigationDuration` seconds later. -/
theorem slotCallback_post (t : ℕ) (slot : ScheduleEntry) (st : SysState) :
    (slotCallback t slot st).2 ≤ 1 ∧
    (slotCallback t slot st).1.soil.irrigationDuration =
      st.soil.irrigationDuration ∧
    (1 ≤ (slotCallback t slot st).2 →
      (slotCallback t slot st).1.soil.isIrrigating = true ∧
      (slotCallback t slot st).1.stopAt =
        some ((t : ℚ) + 60 * st.soil.irrigationDuration)) := by
  unfold slotCallback
  split_ifs with hdue hgate htrig
  · have hni := shouldTrigger_not_irr st.soil htrig
    obtain ⟨hd, hp⟩ := coordPerformWrapped_post t st hni
    by_cases hr : (coordPerformWrapped t st).2 = true
    · refine ⟨by simp [hr], hd, fun _ => hp hr⟩
    · have hr' : (coordPerformWrapped t st).2 = false := by
        simpa using hr
      refine ⟨by simp [hr'], hd, fun hc => ?_⟩
      simp [hr'] at hc
  · exact ⟨by norm_num, rfl, fun hc => by omega⟩
  · exact ⟨by norm_num, rfl, fun hc => by omega⟩
  · exact ⟨by norm_num, rfl, fun hc => by omega⟩

/-- One second of registered schedule intervals consumes at most once,
preserves the irrigation duration, and after a consumption the state is
irrigating with the auto-stop scheduled
`60 · irrigationDuration` seconds later. -/
theorem slotsStep_post (t : ℕ) (slots : List ScheduleEntry) :
    ∀ st : SysState,
      (slotsStep t slots st).2 ≤ 1 ∧
      (slotsStep t slots st).1.soil.irrigationDuration =
        st.soil.irrigationDuration ∧
      (1 ≤ (slotsStep t slots st).2 →
        (slotsStep t slots st).1.soil.isIrrigating = true ∧
        (slotsStep t slots st).1.stopAt =
          some ((t : ℚ) + 60 * st.soil.irrigationDuration)) := by
  induction slots with
  | nil =>
    intro st
    exact ⟨by norm_num [slotsStep], by simp [slotsStep], fun hc => by
      simp [slotsStep] at hc⟩
  | cons slot rest ih =>
    intro st
    obtain ⟨c1, cd, cp⟩ := slotCallback_post t slot st
    by_cases hfi : 1 ≤ (slotCallback t slot st).2
    · obtain ⟨hirr, hstop⟩ := cp hfi
      have hrest := slotsStep_irr t rest (slotCallback t slot st).1 hirr
      refine ⟨?_, ?_, fun _ => ?_⟩ <;>
        simp only [slotsStep, hrest] <;> simp [c1, cd, hirr, hstop]
    · have h0 : (slotCallback t slot st).2 = 0 := by omega
      obtain ⟨r1, rd, rp⟩ := ih (slotCallback t slot st).1
      refine ⟨?_, ?_, fun hc => ?_⟩
      · simp only [slotsStep]
        omega
      · simp only [slotsStep]
        rw [rd, cd]
      · have hc' : 1 ≤ (slotsStep t rest (slotCallback t slot st).1).2 := by
          simp only [slotsStep] at hc
          omega
        obtain ⟨pi, ps⟩ := rp hc'
        refine ⟨?_, ?_⟩ <;> simp only [slotsStep]
        · exact pi
        · rw [ps, cd]

/-- One whole scheduler second consumes at most once, preserves the
irrigation duration, and after a consumption the state is irrigating
with the auto-stop scheduled `60 · irrigationDuration` seconds later. -/
theorem stepSecond_post (slots : List ScheduleEntry) (t : ℕ) (st : SysState) :
    (stepSecond slots t st).2 ≤ 1 ∧
    (stepSecond slots t st).1.soil.irrigationDuration =
      st.soil.irrigationDuration ∧
    (1 ≤ (stepSecond slots t st).2 →
      (stepSecond slots t st).1.soil.isIrrigating = true ∧
      (stepSecond slots t st).1.stopAt =
        some ((t : ℚ) + 60 * st.soil.irrigationDuration)) := by
  obtain ⟨c1, cd, cp⟩ := slotsStep_post t slots (processStop t st)
  have hpd := processStop_dur t st
  refine ⟨c1, ?_, fun hc => ?_⟩
  · show (slotsStep t slots (processStop t st)).1.soil.irrigationDuration =
      st.soil.irrigationDuration
    rw [cd, hpd]
  · obtain ⟨pi, ps⟩ := cp hc
    refine ⟨pi, ?_⟩
    show (slotsStep t slots (processStop t st)).1.stopAt =
      some ((t : ℚ) + 60 * st.soil.irrigationDuration)
    rw [ps, hpd]

/-- Over any run of at most 300 consecutive scheduler seconds, with the
(validated) irrigation duration of at least 5 minutes, at most one tank
consumption occurs: a consumption leaves the soil irrigating for
`60 · duration ≥ 300` seconds, during which every schedule interval is
gated off by `shouldTriggerIrrigation`. -/
theorem runSched_le_one (slots : List ScheduleEntry) :
    ∀ k : ℕ, k ≤ 300 → ∀ (t : ℕ) (st : SysState),
      5 ≤ st.soil.irrigationDuration → (runSched slots t k st).2 ≤ 1 := by
  intro k
  induction k with
  | zero => intro _ t st _; norm_num [runSched]
  | succ k ih =>
    intro hk t st hdur
    obtain ⟨s1, sd, sp⟩ := stepSecond_post slots t st
    by_cases hf : 1 ≤ (stepSecond slots t st).2
    · obtain ⟨hirr, hstop⟩ := sp hf
      have hle : ((t + 1 + k : ℕ) : ℚ) ≤ (t : ℚ) + 60 * st.soil.irrigationDuration := by
        push_cast
        have hkq : (k : ℚ) ≤ 299 := by exact_mod_cast Nat.lt_succ_iff.mp hk
        linarith
      have hquiet := runSched_irr slots k (t + 1) (stepSecond slots t st).1
        ((t : ℚ) + 60 * st.soil.irrigationDuration) hirr hstop hle
      simp only [runSched, hquiet]
      omega
    · have h0 : (stepSecond slots t st).2 = 0 := by omega
      have hrec := ih (by omega) (t + 1) (stepSecond slots t st).1
        (by rw [sd]; exact hdur)
      simp only [runSched]
      omega

/-- C5: for any schedule configuration — including two enabled slots set
to the same time such as "07:00" — and any state whose (validated)
irrigation duration is at least 5 minutes, at most one scheduled
irrigation fire (tank consumption) occurs combined over any window of up
to 121 consecutive scheduler seconds (a 2-minute window).  In
particular a slot that has fired cannot fire again, nor can any other
slot, until more than 2 minutes have elapsed: a fire leaves the soil
irrigating for `60 · duration ≥ 300` seconds and every schedule interval
is gated off by `shouldTriggerIrrigation` while irrigation is active. -/
theorem c5_scheduled_debounce (schedules : List ScheduleEntry) (st : SysState)
    (t k : ℕ) (hdur : 5 ≤ st.soil.irrigationDuration) (hk : k ≤ 121) :
    (runSched (schedules.filter (fun sch => sch.enabled)) t k st).2 ≤ 1 :=
  runSched_le_one (schedules.filter (fun sch => sch.enabled)) k (by omega) t st hdur

/-- C5, witness: two enabled 07:00 slots, a 2-minute window starting at
07:00:00 (second 25200 of the day), tank full and soil at 30%. -/
theorem c5_scheduled_debounce_witness :
    (5 : ℚ) ≤ (SysState.mk (mkWater 72 true) (mkSoil 30) none).soil.irrigationDuration ∧
    121 ≤ 121 ∧
    (runSched ([ScheduleEntry.mk 7 0 true,
        ScheduleEntry.mk 7 0 true].filter (fun sch => sch.enabled)) 25200 121
      (SysState.mk (mkWater 72 true) (mkSoil 30) none)).2 ≤ 1 :=
  ⟨by norm_num [mkSoil], le_rfl,
    c5_scheduled_debounce [ScheduleEntry.mk 7 0 true, ScheduleEntry.mk 7 0 true]
      (SysState.mk (mkWater 72 true) (mkSoil 30) none) 25200 121
      (by norm_num [mkSoil]) le_rfl⟩
